import Mathlib

/-!
Verification development for the password-reset deep-link flow of the mobile
application (file `app/(auth)/reset-password.tsx` and the auth store's
`updatePassword`).

The TypeScript helpers are shallowly embedded as Lean functions:

* `DeepLinkParams` mirrors the optional-string record; a field being the
  TypeScript value `undefined` is `none`, a present string `s` is `some s`.
  JavaScript truthiness of an optional string field is `truthy`.
* `parseDeepLink` is embedded over `List Char` (URLs in scope are ASCII, so
  character positions coincide with JavaScript string indices).
  `URLSearchParams` is modelled by `uspPairs`/`uspGet`: split on `&`, drop a
  single leading `?`, split each segment at the first `=`, replace `+` by a
  space and percent-decode names and values (each decoded byte is taken as
  the character of that code point, which is exact for ASCII input), and
  `get` returns the first pair with the given name.
* The screen's `useState` hooks are collected into `ScreenState`; the remote
  auth service is an environment `remote : RemoteOp → Option String` where
  `none` is a successful call and `some msg` a rejection carrying message
  `msg`.  `exchangeCredentials` returns the single remote operation the
  dispatcher performs (`none` when it falls through to the local
  "no valid recovery credentials" error).
-/

namespace ResetPassword

def MIN_PASSWORD_LENGTH : Nat := 8

inductive Status where
  | idle
  | loading
  | ready
  | error
  | updated
deriving DecidableEq, Repr

structure DeepLinkParams where
  code : Option String := none
  access_token : Option String := none
  refresh_token : Option String := none
  token : Option String := none
  token_hash : Option String := none
deriving DecidableEq, Repr

/-- Initial value of the record built by `parseDeepLink` (`const params = {}`). -/
def emptyParams : DeepLinkParams := {}

/-- JavaScript truthiness of an optional string: defined and non-empty. -/
def truthy : Option String → Bool
  | none => false
  | some s => !(s == "")

/-- Coerce an Expo Router param (string, string-array or undefined) to an
optional string, as `asString` does (`value[0]` of an empty array is
`undefined`). -/
def asString : Option (String ⊕ List String) → Option String
  | some (Sum.inr l) => l.head?
  | some (Sum.inl s) => some s
  | none => none

/-- True when at least one exchangeable credential is present
(`!!(params.code || params.access_token || params.token || params.token_hash)`). -/
def hasCredentials (params : DeepLinkParams) : Bool :=
  truthy params.code || truthy params.access_token ||
    truthy params.token || truthy params.token_hash

/-- Index of the first occurrence of a character (JavaScript `indexOf`,
with `none` for `-1`). -/
def idxOfChar? (c : Char) : List Char → Option Nat
  | [] => none
  | x :: xs => if x == c then some 0 else (idxOfChar? c xs).map (· + 1)

/-- Split a character list on a separator (JavaScript `String.split` on a
single character: adjacent separators produce empty segments). -/
def splitChar (c : Char) : List Char → List (List Char)
  | [] => [[]]
  | x :: xs =>
    if x == c then
      [] :: splitChar c xs
    else
      match splitChar c xs with
      | [] => [[x]]
      | g :: gs => (x :: g) :: gs

/-- Hexadecimal digit value, when the character is one. -/
def hexVal? (c : Char) : Option Nat :=
  if '0' ≤ c ∧ c ≤ '9' then some (c.toNat - '0'.toNat)
  else if 'a' ≤ c ∧ c ≤ 'f' then some (c.toNat - 'a'.toNat + 10)
  else if 'A' ≤ c ∧ c ≤ 'F' then some (c.toNat - 'A'.toNat + 10)
  else none

/-- `application/x-www-form-urlencoded` decoding of one component: `+`
becomes a space, `%XY` with two hex digits becomes the byte `0xXY` (taken
as the character of that code point), any other `%` is kept verbatim. -/
def formDecode : List Char → List Char
  | '%' :: a :: b :: rest =>
    match hexVal? a, hexVal? b with
    | some x, some y => Char.ofNat (16 * x + y) :: formDecode rest
    | _, _ => '%' :: formDecode (a :: b :: rest)
  | c :: rest => (if c == '+' then ' ' else c) :: formDecode rest
  | [] => []

/-- Name/value pairs of `new URLSearchParams(s)`: one leading `?` is
dropped, the string is split on `&`, empty segments are skipped, each
segment is split at its first `=`, and names and values are decoded. -/
def uspPairs (s : List Char) : List (String × String) :=
  let s' := match s with
    | '?' :: rest => rest
    | _ => s
  (splitChar '&' s').filterMap fun seg =>
    if seg = [] then
      none
    else
      let kv := seg.span (fun c => !(c == '='))
      let v := match kv.2 with
        | '=' :: r => r
        | _ => []
      some (String.mk (formDecode kv.1), String.mk (formDecode v))

/-- `URLSearchParams.get`: value of the first pair with the given name,
or `none` (JavaScript `null`). -/
def uspGet (s : List Char) (key : String) : Option String :=
  ((uspPairs s).find? (fun p => p.1 == key)).map Prod.snd

/-- Query portion scanned by `parseDeepLink`:
`url.substring(queryStart + 1, queryEnd)` where `queryEnd` is the fragment
start when it lies after the query start, else the end of the string;
empty when the URL has no `?`. -/
def queryChars (chars : List Char) : List Char :=
  match idxOfChar? '?' chars with
  | none => []
  | some q =>
    let e := match idxOfChar? '#' chars with
      | some f => if q < f then f else chars.length
      | none => chars.length
    (chars.drop (q + 1)).take (e - (q + 1))

/-- Fragment portion scanned by `parseDeepLink`:
`url.substring(fragmentStart + 1)`, empty when the URL has no `#`. -/
def fragmentChars (chars : List Char) : List Char :=
  match idxOfChar? '#' chars with
  | none => []
  | some f => chars.drop (f + 1)

/-- One `if (value) params[key] = value` step: overwrite the current field
only when the looked-up value is truthy. -/
def setIfTruthy (cur : Option String) (v : Option String) : Option String :=
  match v with
  | some s => if s == "" then cur else some s
  | none => cur

/-- One iteration of the `for (const part of [queryString, fragment])` loop:
skip an empty part, otherwise look up each of the five recognized keys and
store the truthy ones. -/
def applyPart (p : DeepLinkParams) (part : List Char) : DeepLinkParams :=
  if part = [] then p
  else
    { code := setIfTruthy p.code (uspGet part "code"),
      access_token := setIfTruthy p.access_token (uspGet part "access_token"),
      refresh_token := setIfTruthy p.refresh_token (uspGet part "refresh_token"),
      token := setIfTruthy p.token (uspGet part "token"),
      token_hash := setIfTruthy p.token_hash (uspGet part "token_hash") }

/-- Parses both query-string and URL-fragment parameters from a deep link
URL.  The primitives used by the source (`indexOf`, `substring`,
`URLSearchParams`) are total, so the embedding is a total function; the
source's `catch` branch returning the partial record is never taken. -/
def parseDeepLink (url : String) : DeepLinkParams :=
  let chars := url.toList
  applyPart (applyPart emptyParams (queryChars chars)) (fragmentChars chars)

/-- Lower-cased character list of a string (`message.toLowerCase()`;
ASCII case folding, exact for the recognized phrases). -/
def lowerStr (s : String) : List Char :=
  s.toList.map Char.toLower

/-- Whether `sub` occurs at the start of `s`. -/
def startsWithChars : List Char → List Char → Bool
  | [], _ => true
  | _ :: _, [] => false
  | a :: as, b :: bs => a == b && startsWithChars as bs

/-- Whether `sub` occurs as a contiguous substring of `s`
(JavaScript `String.includes`). -/
def containsChars (sub : List Char) : List Char → Bool
  | [] => startsWithChars sub []
  | b :: bs => startsWithChars sub (b :: bs) || containsChars sub bs

/-- True when the Supabase error looks like an expired or already-used link. -/
def isExpiredOrUsedError (message : String) : Bool :=
  containsChars ("expired".toList) (lowerStr message) ||
  containsChars ("already used".toList) (lowerStr message) ||
  containsChars ("otp_expired".toList) (lowerStr message) ||
  containsChars ("invalid_grant".toList) (lowerStr message) ||
  containsChars ("invalid token".toList) (lowerStr message) ||
  containsChars ("invalid otp".toList) (lowerStr message) ||
  containsChars ("invalid recovery".toList) (lowerStr message)

/-- The three remote auth operations the dispatcher can perform. -/
inductive RemoteOp where
  | exchangeCodeForSession (code : String)
  | setSession (access_token refresh_token : String)
  | verifyOtp (token_hash : String)
deriving DecidableEq, Repr

/-- Sub-flow selection of `exchangeCredentials`: the one remote operation
performed, or `none` when the function falls through to
`throw new Error('No valid recovery credentials found in the link.')`.
`otpToken` is `params.token_hash ?? params.token` (nullish coalescing:
a present empty string is kept and is then falsy). -/
def exchangeCredentials (params : DeepLinkParams) : Option RemoteOp :=
  if truthy params.code then
    some (RemoteOp.exchangeCodeForSession (params.code.getD ""))
  else if truthy params.access_token && truthy params.refresh_token then
    some (RemoteOp.setSession (params.access_token.getD "") (params.refresh_token.getD ""))
  else
    let otpToken := match params.token_hash with
      | some s => some s
      | none => params.token
    match otpToken with
    | some s => if s == "" then none else some (RemoteOp.verifyOtp s)
    | none => none

/-- Message of the fall-through error thrown by `exchangeCredentials`. -/
def noValidCredentialsMsg : String :=
  "No valid recovery credentials found in the link."

/-- Outcome of `await exchangeCredentials(params)` under a remote
environment: the selected operation's outcome, or the local fall-through
error. `none` is success, `some msg` a failure with message `msg`. -/
def exchangeResult (remote : RemoteOp → Option String) (params : DeepLinkParams) :
    Option String :=
  match exchangeCredentials params with
  | some op => remote op
  | none => some noValidCredentialsMsg

/-- The screen's `useState` hooks and the `lastParamsRef` ref. -/
structure ScreenState where
  status : Status
  errorMessage : String
  isExpired : Bool
  canRetry : Bool
  password : String
  confirmPassword : String
  passwordError : String
  confirmError : String
  isSubmitting : Bool
  lastParams : Option DeepLinkParams
deriving DecidableEq, Repr

/-- State on first render: every hook at its initial value. -/
def initialState : ScreenState :=
  { status := Status.idle
    errorMessage := ""
    isExpired := false
    canRetry := false
    password := ""
    confirmPassword := ""
    passwordError := ""
    confirmError := ""
    isSubmitting := false
    lastParams := none }

/-- Writes performed on entering `loading`:
`setStatus('loading'); setErrorMessage(''); setIsExpired(false)`. -/
def beginLoading (s : ScreenState) : ScreenState :=
  { s with status := Status.loading, errorMessage := "", isExpired := false }

/-- Writes performed once the exchange settles: success moves to `ready`;
failure records the message, classifies it, and allows retry exactly when
the failure is not classified expired/used. -/
def settleExchange (s : ScreenState) (outcome : Option String) : ScreenState :=
  match outcome with
  | none => { s with status := Status.ready }
  | some msg =>
    let expired := isExpiredOrUsedError msg
    { s with status := Status.error, errorMessage := msg,
             isExpired := expired, canRetry := !expired }

/-- The screen's `processParams` callback: store the params for retry,
reject credential-less params with the fixed "incomplete" error, otherwise
enter `loading` and settle the exchange. -/
def processParams (remote : RemoteOp → Option String) (s : ScreenState)
    (params : DeepLinkParams) : ScreenState :=
  let s' := { s with lastParams := some params }
  if hasCredentials params then
    settleExchange (beginLoading s') (exchangeResult remote params)
  else
    { s' with status := Status.error,
              errorMessage := "This reset link appears to be incomplete.",
              canRetry := false }

/-- Expo Router search params as delivered to the screen (each recognized
key may be a string, a string array, or absent). -/
structure RouterParams where
  code : Option (String ⊕ List String) := none
  access_token : Option (String ⊕ List String) := none
  refresh_token : Option (String ⊕ List String) := none
  token : Option (String ⊕ List String) := none
  token_hash : Option (String ⊕ List String) := none

/-- The `rpParams` record built in the deep-link effect from the router
params via `asString`. -/
def rpParamsOf (rp : RouterParams) : DeepLinkParams :=
  { code := asString rp.code
    access_token := asString rp.access_token
    refresh_token := asString rp.refresh_token
    token := asString rp.token
    token_hash := asString rp.token_hash }

/-- Mount-time resolution of the deep-link effect: use the router params
when they carry credentials, otherwise parse the initial URL (when there
is one) and process it only when it carries credentials. -/
def mountResolve (remote : RemoteOp → Option String) (s : ScreenState)
    (rp : RouterParams) (initialUrl : Option String) : ScreenState :=
  let rpParams := rpParamsOf rp
  if hasCredentials rpParams then
    processParams remote s rpParams
  else
    match initialUrl with
    | some url =>
      let parsed := parseDeepLink url
      if hasCredentials parsed then processParams remote s parsed else s
    | none => s

/-- The `Linking` url-event listener: every event URL is parsed and handed
to `processParams` unconditionally. -/
def handleUrlEvent (remote : RemoteOp → Option String) (s : ScreenState)
    (url : String) : ScreenState :=
  processParams remote s (parseDeepLink url)

/-- The `handleRetry` callback: re-process the last stored params, if any. -/
def handleRetry (remote : RemoteOp → Option String) (s : ScreenState) : ScreenState :=
  match s.lastParams with
  | some p => processParams remote s p
  | none => s

/-- Validation message for a too-short password
(template `Password must be at least ${MIN_PASSWORD_LENGTH} characters`). -/
def passwordTooShortMsg : String :=
  "Password must be at least " ++ toString MIN_PASSWORD_LENGTH ++ " characters"

/-- Validation message for mismatched entries. -/
def passwordsMismatchMsg : String := "Passwords do not match"

/-- The `validateAndSubmit` callback.  `updateResult` is the outcome of
`updatePassword` (`none` success, `some msg` rejection with message `msg`);
the returned boolean records whether `updatePassword` was invoked. -/
def validateAndSubmit (updateResult : Option String) (s : ScreenState) :
    ScreenState × Bool :=
  let hasError1 := decide (s.password.length < MIN_PASSWORD_LENGTH)
  let s1 :=
    if hasError1 then
      { s with passwordError := passwordTooShortMsg }
    else
      { s with passwordError := "" }
  let hasError2 := !(s.password == s.confirmPassword)
  let s2 :=
    if hasError2 then
      { s1 with confirmError := passwordsMismatchMsg }
    else
      { s1 with confirmError := "" }
  if hasError1 || hasError2 then
    (s2, false)
  else
    let s3 := { s2 with isSubmitting := true }
    match updateResult with
    | none => ({ s3 with status := Status.updated, isSubmitting := false }, true)
    | some msg =>
      ({ s3 with status := Status.error, errorMessage := msg, isSubmitting := false }, true)

/-- Screen state in `ready` with the five-character password "short" typed
into both fields. -/
def shortPwState : ScreenState :=
  { initialState with status := Status.ready, password := "short", confirmPassword := "short" }

/-- Screen state in `ready` after a retryable exchange failure was retried
successfully, with a valid matching password typed in and a stale
validation message left over from an earlier too-short submission. -/
def stalePwState : ScreenState :=
  { initialState with
      status := Status.ready
      canRetry := true
      password := "longenough1"
      confirmPassword := "longenough1"
      passwordError := passwordTooShortMsg }

/-! Helper lemmas. -/

theorem truthy_iff (o : Option String) :
    truthy o = true ↔ ∃ s, o = some s ∧ s ≠ "" := by
  cases o <;> simp [truthy]

theorem idxOfChar?_eq_none (c : Char) (l : List Char) (h : c ∉ l) :
    idxOfChar? c l = none := by
  induction l with
  | nil => rfl
  | cons x xs ih =>
    simp only [List.mem_cons, not_or] at h
    have hx : (x == c) = false := beq_eq_false_iff_ne.mpr fun he => h.1 he.symm
    simp [idxOfChar?, hx, ih h.2]

theorem queryChars_eq_nil (chars : List Char) (h : '?' ∉ chars) :
    queryChars chars = [] := by
  simp [queryChars, idxOfChar?_eq_none _ _ h]

theorem fragmentChars_eq_nil (chars : List Char) (h : '#' ∉ chars) :
    fragmentChars chars = [] := by
  simp [fragmentChars, idxOfChar?_eq_none _ _ h]

theorem applyPart_nil (p : DeepLinkParams) : applyPart p [] = p := rfl

theorem setIfTruthy_of_truthy (c v : Option String) (h : truthy v = true) :
    setIfTruthy c v = v := by
  cases v with
  | none => simp [truthy] at h
  | some s =>
    cases hbe : (s == "") with
    | true => exfalso; simp [truthy, hbe] at h
    | false => simp [setIfTruthy, hbe]

theorem setIfTruthy_none_of_not_truthy (v : Option String) (h : truthy v = false) :
    setIfTruthy none v = none := by
  cases v with
  | none => rfl
  | some s =>
    cases hbe : (s == "") with
    | true => simp [setIfTruthy, hbe]
    | false => exfalso; simp [truthy, hbe] at h

theorem truthy_uspGet_nil (key : String) : truthy (uspGet [] key) = false := rfl

theorem applyPart_access_token (p : DeepLinkParams) (part : List Char) (h : part ≠ []) :
    (applyPart p part).access_token = setIfTruthy p.access_token (uspGet part "access_token") := by
  simp [applyPart, h]

theorem applyPart_refresh_token (p : DeepLinkParams) (part : List Char) (h : part ≠ []) :
    (applyPart p part).refresh_token = setIfTruthy p.refresh_token (uspGet part "refresh_token") := by
  simp [applyPart, h]

theorem validateAndSubmit_frame (r : Option String) (t : ScreenState) :
    (validateAndSubmit r t).1.canRetry = t.canRetry ∧
    (validateAndSubmit r t).1.isExpired = t.isExpired ∧
    (validateAndSubmit r t).1.lastParams = t.lastParams := by
  rcases Bool.eq_false_or_eq_true (decide (t.password.length < MIN_PASSWORD_LENGTH)) with h1 | h1 <;>
    rcases Bool.eq_false_or_eq_true (!(t.password == t.confirmPassword)) with h2 | h2 <;>
      cases r <;> simp [validateAndSubmit, h1, h2]

/-! Claim theorems. -/

/-- C2: `hasCredentials` is true iff at least one of `code`, `access_token`,
`token`, `token_hash` is a present non-empty string, and the result is
independent of `refresh_token`. -/
theorem c2_hasCredentials_spec (p : DeepLinkParams) :
    (hasCredentials p = true ↔
      ∃ s, s ≠ "" ∧ (p.code = some s ∨ p.access_token = some s ∨
        p.token = some s ∨ p.token_hash = some s)) ∧
    (∀ rt, hasCredentials { p with refresh_token := rt } = hasCredentials p) := by
  constructor
  · simp only [hasCredentials, Bool.or_eq_true, truthy_iff]
    constructor
    · rintro (((⟨s, hs, hne⟩ | ⟨s, hs, hne⟩) | ⟨s, hs, hne⟩) | ⟨s, hs, hne⟩)
      exacts [⟨s, hne, Or.inl hs⟩, ⟨s, hne, Or.inr (Or.inl hs)⟩,
        ⟨s, hne, Or.inr (Or.inr (Or.inl hs))⟩, ⟨s, hne, Or.inr (Or.inr (Or.inr hs))⟩]
    · rintro ⟨s, hne, (hs | hs | hs | hs)⟩
      exacts [Or.inl (Or.inl (Or.inl ⟨s, hs, hne⟩)), Or.inl (Or.inl (Or.inr ⟨s, hs, hne⟩)),
        Or.inl (Or.inr ⟨s, hs, hne⟩), Or.inr ⟨s, hs, hne⟩]
  · intro rt
    rfl

/-- C4: an exchange failure whose message contains one of the recognized
phrases as a case-insensitive substring leaves the screen in `error` with
`canRetry = false` (and `isExpired = true`); in particular any message
containing `expired` in any case (the first disjunct) is terminal. -/
theorem c4_expired_failure_terminal (remote : RemoteOp → Option String)
    (s : ScreenState) (p : DeepLinkParams) (msg : String)
    (hcred : hasCredentials p = true)
    (hfail : exchangeResult remote p = some msg)
    (hphrase : containsChars ("expired".toList) (lowerStr msg) = true ∨
      containsChars ("already used".toList) (lowerStr msg) = true ∨
      containsChars ("otp_expired".toList) (lowerStr msg) = true ∨
      containsChars ("invalid_grant".toList) (lowerStr msg) = true ∨
      containsChars ("invalid token".toList) (lowerStr msg) = true ∨
      containsChars ("invalid otp".toList) (lowerStr msg) = true ∨
      containsChars ("invalid recovery".toList) (lowerStr msg) = true) :
    (processParams remote s p).status = Status.error ∧
    (processParams remote s p).canRetry = false ∧
    (processParams remote s p).isExpired = true := by
  have hexp : isExpiredOrUsedError msg = true := by
    simp only [isExpiredOrUsedError, Bool.or_eq_true]
    tauto
  simp [processParams, hcred, hfail, settleExchange, beginLoading, hexp]

/-- C4 witness: a PKCE-code exchange rejected with message "Token EXPIRED". -/
theorem c4_witness :
    (processParams (fun _ => some "Token EXPIRED") initialState { code := some "abc" }).status
        = Status.error ∧
    (processParams (fun _ => some "Token EXPIRED") initialState { code := some "abc" }).canRetry
        = false ∧
    (processParams (fun _ => some "Token EXPIRED") initialState { code := some "abc" }).isExpired
        = true :=
  c4_expired_failure_terminal (fun _ => some "Token EXPIRED") initialState
    { code := some "abc" } "Token EXPIRED" (by decide) (by decide) (Or.inl (by decide))

/-- C5: an exchange failure whose message contains none of the recognized
phrases leaves the screen in `error` with `canRetry = true`, the failing
params are stored, and `handleRetry` re-processes exactly those params. -/
theorem c5_other_failure_retryable (remote remote2 : RemoteOp → Option String)
    (s : ScreenState) (p : DeepLinkParams) (msg : String)
    (hcred : hasCredentials p = true)
    (hfail : exchangeResult remote p = some msg)
    (h1 : containsChars ("expired".toList) (lowerStr msg) = false)
    (h2 : containsChars ("already used".toList) (lowerStr msg) = false)
    (h3 : containsChars ("otp_expired".toList) (lowerStr msg) = false)
    (h4 : containsChars ("invalid_grant".toList) (lowerStr msg) = false)
    (h5 : containsChars ("invalid token".toList) (lowerStr msg) = false)
    (h6 : containsChars ("invalid otp".toList) (lowerStr msg) = false)
    (h7 : containsChars ("invalid recovery".toList) (lowerStr msg) = false) :
    (processParams remote s p).status = Status.error ∧
    (processParams remote s p).canRetry = true ∧
    (processParams remote s p).lastParams = some p ∧
    handleRetry remote2 (processParams remote s p) =
      processParams remote2 (processParams remote s p) p := by
  have hexp : isExpiredOrUsedError msg = false := by
    unfold isExpiredOrUsedError
    rw [h1, h2, h3, h4, h5, h6, h7]
    decide
  have hlast : (processParams remote s p).lastParams = some p := by
    simp [processParams, hcred, hfail, settleExchange, beginLoading]
  refine ⟨?_, ?_, hlast, ?_⟩
  · simp [processParams, hcred, hfail, settleExchange, beginLoading]
  · simp [processParams, hcred, hfail, settleExchange, beginLoading, hexp]
  · simp [handleRetry, hlast]

/-- C5 witness: a PKCE-code exchange rejected with the unrecognized
message "boom", then retried against a succeeding remote. -/
theorem c5_witness :
    (processParams (fun _ => some "boom") initialState { code := some "abc" }).status
        = Status.error ∧
    (processParams (fun _ => some "boom") initialState { code := some "abc" }).canRetry
        = true ∧
    (processParams (fun _ => some "boom") initialState { code := some "abc" }).lastParams
        = some { code := some "abc" } ∧
    handleRetry (fun _ => none) (processParams (fun _ => some "boom") initialState { code := some "abc" }) =
      processParams (fun _ => none)
        (processParams (fun _ => some "boom") initialState { code := some "abc" }) { code := some "abc" } :=
  c5_other_failure_retryable (fun _ => some "boom") (fun _ => none) initialState
    { code := some "abc" } "boom" (by decide) (by decide) (by decide) (by decide)
    (by decide) (by decide) (by decide) (by decide) (by decide)

/-- C9: a submission from `ready` that fails local validation (too short or
mismatched) keeps the status at `ready`, shows a validation error in place,
and never invokes the remote `updatePassword`. -/
theorem c9_local_validation_blocks_submit (updateResult : Option String)
    (s : ScreenState) (hready : s.status = Status.ready)
    (hbad : s.password.length < MIN_PASSWORD_LENGTH ∨ s.password ≠ s.confirmPassword) :
    (validateAndSubmit updateResult s).2 = false ∧
    (validateAndSubmit updateResult s).1.status = Status.ready ∧
    ((validateAndSubmit updateResult s).1.passwordError = passwordTooShortMsg ∨
      (validateAndSubmit updateResult s).1.confirmError = passwordsMismatchMsg) := by
  by_cases hl : s.password.length < MIN_PASSWORD_LENGTH <;>
    by_cases hm : s.password = s.confirmPassword
  · have hL := decide_eq_true hl
    have hM : (s.password == s.confirmPassword) = true := beq_iff_eq.mpr hm
    refine ⟨?_, ?_, Or.inl ?_⟩ <;> simp [validateAndSubmit, hL, hM, hready]
  · have hL := decide_eq_true hl
    have hM : (s.password == s.confirmPassword) = false := beq_eq_false_iff_ne.mpr hm
    refine ⟨?_, ?_, Or.inl ?_⟩ <;> simp [validateAndSubmit, hL, hM, hready]
  · exfalso
    rcases hbad with h | h
    · exact hl h
    · exact h hm
  · have hL := decide_eq_false hl
    have hM : (s.password == s.confirmPassword) = false := beq_eq_false_iff_ne.mpr hm
    refine ⟨?_, ?_, Or.inr ?_⟩ <;> simp [validateAndSubmit, hL, hM, hready]

/-- C9 witness: submitting the five-character password "short" from `ready`. -/
theorem c9_witness :
    (validateAndSubmit none shortPwState).2 = false ∧
    (validateAndSubmit none shortPwState).1.status = Status.ready ∧
    ((validateAndSubmit none shortPwState).1.passwordError = passwordTooShortMsg ∨
      (validateAndSubmit none shortPwState).1.confirmError = passwordsMismatchMsg) :=
  c9_local_validation_blocks_submit none shortPwState (by decide) (Or.inl (by decide))

/-- C8: `parseDeepLink` is a total function of any input string (the
primitives it uses never throw, so the embedding returns a record for
every input), and a string carrying neither a query marker nor a fragment
marker — in particular any unparsable non-URL text — yields the all-empty
params, which the credential check rejects. -/
theorem c8_malformed_url_yields_empty (url : String)
    (hq : '?' ∉ url.toList) (hf : '#' ∉ url.toList) :
    parseDeepLink url = emptyParams ∧
    hasCredentials (parseDeepLink url) = false := by
  have h1 : parseDeepLink url = emptyParams := by
    show applyPart (applyPart emptyParams (queryChars url.toList)) (fragmentChars url.toList)
        = emptyParams
    rw [queryChars_eq_nil _ hq, fragmentChars_eq_nil _ hf, applyPart_nil, applyPart_nil]
  exact ⟨h1, by rw [h1]; rfl⟩

/-- C8 witness: a plain string that is not a URL at all. -/
theorem c8_witness :
    parseDeepLink "not a url at all" = emptyParams ∧
    hasCredentials (parseDeepLink "not a url at all") = false :=
  c8_malformed_url_yields_empty "not a url at all" (by decide) (by decide)

/-- C7 counterexample: the URL `app://x?code=abc&token=tok` carries a
`code` key/value pair in its query string and has no fragment, yet the
extractor also populates `token`, refuting "only the code field populated". -/
theorem c7_counterexample :
    '#' ∉ "app://x?code=abc&token=tok".toList ∧
    uspGet (queryChars ("app://x?code=abc&token=tok".toList)) "code" = some "abc" ∧
    (parseDeepLink "app://x?code=abc&token=tok").token = some "tok" := by
  refine ⟨by decide, by decide, by decide⟩

/-- C7 amended: (a) for a URL with no fragment whose query string's first
`code` pair is non-empty and whose query string carries no other recognized
key with a truthy first value, the extractor populates only `code`;
(b) for a URL whose fragment's first `access_token` and `refresh_token`
pairs are non-empty, both fields are populated with those values,
regardless of the query-string content. -/
theorem c7_amended :
    (∀ url : String, '#' ∉ url.toList →
      truthy (uspGet (queryChars url.toList) "code") = true →
      truthy (uspGet (queryChars url.toList) "access_token") = false →
      truthy (uspGet (queryChars url.toList) "refresh_token") = false →
      truthy (uspGet (queryChars url.toList) "token") = false →
      truthy (uspGet (queryChars url.toList) "token_hash") = false →
      parseDeepLink url = { emptyParams with code := uspGet (queryChars url.toList) "code" } ∧
      truthy (parseDeepLink url).code = true) ∧
    (∀ url : String,
      truthy (uspGet (fragmentChars url.toList) "access_token") = true →
      truthy (uspGet (fragmentChars url.toList) "refresh_token") = true →
      (parseDeepLink url).access_token = uspGet (fragmentChars url.toList) "access_token" ∧
      (parseDeepLink url).refresh_token = uspGet (fragmentChars url.toList) "refresh_token" ∧
      truthy (parseDeepLink url).access_token = true ∧
      truthy (parseDeepLink url).refresh_token = true) := by
  constructor
  · intro url hf hc ha hr ht hth
    have hfe : fragmentChars url.toList = [] := fragmentChars_eq_nil _ hf
    have hqne : queryChars url.toList ≠ [] := by
      intro h
      rw [h] at hc
      simp [truthy_uspGet_nil] at hc
    have hparse : parseDeepLink url
        = applyPart (applyPart emptyParams (queryChars url.toList)) (fragmentChars url.toList) :=
      rfl
    rw [hparse, hfe, applyPart_nil]
    constructor
    · simp only [applyPart, if_neg hqne, emptyParams]
      rw [setIfTruthy_of_truthy _ _ hc, setIfTruthy_none_of_not_truthy _ ha,
        setIfTruthy_none_of_not_truthy _ hr, setIfTruthy_none_of_not_truthy _ ht,
        setIfTruthy_none_of_not_truthy _ hth]
    · simp only [applyPart, if_neg hqne, emptyParams]
      rw [setIfTruthy_of_truthy _ _ hc]
      exact hc
  · intro url ha hr
    have hfne : fragmentChars url.toList ≠ [] := by
      intro h
      rw [h] at ha
      simp [truthy_uspGet_nil] at ha
    have h1 : (parseDeepLink url).access_token
        = uspGet (fragmentChars url.toList) "access_token" := by
      have h := applyPart_access_token
        (applyPart emptyParams (queryChars url.toList)) (fragmentChars url.toList) hfne
      rw [setIfTruthy_of_truthy _ _ ha] at h
      exact h
    have h2 : (parseDeepLink url).refresh_token
        = uspGet (fragmentChars url.toList) "refresh_token" := by
      have h := applyPart_refresh_token
        (applyPart emptyParams (queryChars url.toList)) (fragmentChars url.toList) hfne
      rw [setIfTruthy_of_truthy _ _ hr] at h
      exact h
    refine ⟨h1, h2, ?_, ?_⟩
    · rw [h1]; exact ha
    · rw [h2]; exact hr

/-- C7 witness: the amended statement applied to `app://x?code=abc` (query
side) and `app://reset#access_token=T1&refresh_token=T2` (fragment side). -/
theorem c7_witness :
    parseDeepLink "app://x?code=abc"
      = { emptyParams with code := uspGet (queryChars ("app://x?code=abc".toList)) "code" } ∧
    truthy (parseDeepLink "app://reset#access_token=T1&refresh_token=T2").access_token = true ∧
    truthy (parseDeepLink "app://reset#access_token=T1&refresh_token=T2").refresh_token = true :=
  ⟨(c7_amended.1 "app://x?code=abc" (by decide) (by decide) (by decide) (by decide)
      (by decide) (by decide)).1,
   (c7_amended.2 "app://reset#access_token=T1&refresh_token=T2" (by decide) (by decide)).2.2.1,
   (c7_amended.2 "app://reset#access_token=T1&refresh_token=T2" (by decide) (by decide)).2.2.2⟩

/-- C1 counterexample: for `{ token := "tok", token_hash := "" }` the params
have credentials, `token` is a present non-empty string and `code` and the
session tokens are absent, yet the dispatcher performs no remote operation
at all (nullish coalescing keeps the present-but-empty `token_hash`, which
is then falsy), instead of verifying `tok`. -/
theorem c1_counterexample :
    hasCredentials { token := some "tok", token_hash := some "" } = true ∧
    truthy (DeepLinkParams.token { token := some "tok", token_hash := some "" }) = true ∧
    exchangeCredentials { token := some "tok", token_hash := some "" } = none := by
  refine ⟨by decide, by decide, by decide⟩

/-- C1 amended: the dispatcher selects at most one sub-flow (it returns a
single optional operation) and, provided `token_hash` is not a present
empty string, follows the priority order: only `code` set performs the
code exchange; `code` absent with both session tokens present sets the
session; otherwise a present `token_hash` or `token` is verified, with
`token_hash` preferred. -/
theorem c1_amended :
    (∀ (p : DeepLinkParams) (c : String), p.code = some c → c ≠ "" →
      p.access_token = none → p.refresh_token = none →
      p.token = none → p.token_hash = none →
      exchangeCredentials p = some (RemoteOp.exchangeCodeForSession c)) ∧
    (∀ p : DeepLinkParams, truthy p.code = false →
      truthy p.access_token = true → truthy p.refresh_token = true →
      exchangeCredentials p =
        some (RemoteOp.setSession (p.access_token.getD "") (p.refresh_token.getD ""))) ∧
    (∀ p : DeepLinkParams, truthy p.code = false →
      (truthy p.access_token && truthy p.refresh_token) = false →
      p.token_hash ≠ some "" →
      (truthy p.token_hash = true ∨ truthy p.token = true) →
      exchangeCredentials p =
        some (RemoteOp.verifyOtp (match p.token_hash with
          | some th => th
          | none => p.token.getD ""))) := by
  refine ⟨?_, ?_, ?_⟩
  · intro p c hc hne ha hr ht hth
    have htr : truthy (some c) = true := by simp [truthy, hne]
    simp [exchangeCredentials, hc, htr]
  · intro p h0 ha hr
    simp [exchangeCredentials, h0, ha, hr]
  · intro p h0 hb hth hor
    simp only [exchangeCredentials, h0, Bool.false_eq_true, if_false, hb]
    cases hth2 : p.token_hash with
    | some th =>
      have hne : th ≠ "" := fun he => hth (by rw [hth2, he])
      simp [beq_eq_false_iff_ne.mpr hne]
    | none =>
      rcases hor with h | h
      · rw [hth2] at h
        simp [truthy] at h
      · cases htk : p.token with
        | none =>
          rw [htk] at h
          simp [truthy] at h
        | some t =>
          rw [htk] at h
          have hne : (t == "") = false := by
            cases hb2 : (t == "") with
            | false => rfl
            | true => simp [truthy, hb2] at h
          simp [hne]

/-- C1 witness: the amended statement applied to the three canonical
single-flow parameter sets. -/
theorem c1_witness :
    exchangeCredentials { code := some "abc" } = some (RemoteOp.exchangeCodeForSession "abc") ∧
    exchangeCredentials { access_token := some "A", refresh_token := some "R" } =
      some (RemoteOp.setSession "A" "R") ∧
    exchangeCredentials { token := some "T" } = some (RemoteOp.verifyOtp "T") := by
  refine ⟨c1_amended.1 { code := some "abc" } "abc" rfl (by decide) rfl rfl rfl rfl, ?_, ?_⟩
  · exact c1_amended.2.1 { access_token := some "A", refresh_token := some "R" }
      (by decide) (by decide) (by decide)
  · exact c1_amended.2.2 { token := some "T" } (by decide) (by decide) (by decide)
      (Or.inr (by decide))

/-- C3 counterexample: `{ access_token := "at" }` passes the credential
check (non-empty `access_token`), yet with no `refresh_token` the
dispatcher skips every sub-flow and reaches the defensive fall-through
error, refuting its unreachability under `hasCredentials` alone. -/
theorem c3_counterexample :
    hasCredentials { access_token := some "at" } = true ∧
    exchangeCredentials { access_token := some "at" } = none := by
  refine ⟨by decide, by decide⟩

/-- C3 amended: for params with credentials, the fall-through branch is
unreachable provided a present (non-empty) `access_token` is accompanied by
a present `refresh_token` and `token_hash` is not a present empty string. -/
theorem c3_amended (p : DeepLinkParams)
    (hcred : hasCredentials p = true)
    (himp : truthy p.access_token = true → truthy p.refresh_token = true)
    (hth : p.token_hash ≠ some "") :
    (exchangeCredentials p).isSome = true := by
  cases hc : truthy p.code with
  | true => simp [exchangeCredentials, hc]
  | false =>
    cases ha : truthy p.access_token with
    | true =>
      have hr := himp ha
      simp [exchangeCredentials, hc, ha, hr]
    | false =>
      have hor : truthy p.token = true ∨ truthy p.token_hash = true := by
        have h := hcred
        simp only [hasCredentials, hc, ha, Bool.false_or, Bool.or_eq_true] at h
        exact h
      cases hth2 : p.token_hash with
      | some th =>
        have hne : th ≠ "" := fun he => hth (by rw [hth2, he])
        simp [exchangeCredentials, hc, ha, hth2, beq_eq_false_iff_ne.mpr hne]
      | none =>
        rcases hor with h | h
        · cases htk : p.token with
          | none =>
            rw [htk] at h
            simp [truthy] at h
          | some t =>
            rw [htk] at h
            have hne : (t == "") = false := by
              cases hb2 : (t == "") with
              | false => rfl
              | true => simp [truthy, hb2] at h
            simp [exchangeCredentials, hc, ha, hth2, htk, hne]
        · rw [hth2] at h
          simp [truthy] at h

/-- C3 witness: a params value carrying only a PKCE `code`. -/
theorem c3_witness : (exchangeCredentials { code := some "abc" }).isSome = true :=
  c3_amended { code := some "abc" } (by decide) (by decide) (by decide)

/-- C6 counterexample: with no router params and the credential-less
initial URL `app://reset`, the mount effect leaves the status at `idle`,
but a subsequent url event carrying the same credential-less URL is handed
to `processParams` unconditionally, which moves the status to `error`
("incomplete link") — the state leaves `idle` although no credential-
bearing parameter set was ever observed. -/
theorem c6_counterexample :
    (mountResolve (fun _ => none) initialState {} (some "app://reset")).status = Status.idle ∧
    hasCredentials (parseDeepLink "app://reset") = false ∧
    (handleUrlEvent (fun _ => none)
      (mountResolve (fun _ => none) initialState {} (some "app://reset"))
      "app://reset").status = Status.error := by
  refine ⟨by decide, by decide, by decide⟩

/-- C6 amended: when neither the router-supplied parameters nor the initial
URL yields credentials and no url events arrive, the mount effect leaves
the screen state (in particular an initial `idle` status) unchanged. -/
theorem c6_amended (remote : RemoteOp → Option String) (s : ScreenState)
    (rp : RouterParams) (initialUrl : Option String)
    (h1 : hasCredentials (rpParamsOf rp) = false)
    (h2 : ∀ u, initialUrl = some u → hasCredentials (parseDeepLink u) = false) :
    mountResolve remote s rp initialUrl = s := by
  cases initialUrl with
  | none => simp [mountResolve, h1]
  | some u => simp [mountResolve, h1, h2 u rfl]

/-- C6 witness: empty router params and the credential-less initial URL
`app://reset` leave the initial state untouched. -/
theorem c6_witness :
    mountResolve (fun _ => none) initialState {} (some "app://reset") = initialState :=
  c6_amended (fun _ => none) initialState {} (some "app://reset") (by decide)
    (fun u hu => by
      injection hu with h
      rw [← h]
      decide)

/-- C10 counterexample: a password-update failure from a `ready` state that
still carries a stale validation message also clears `passwordError` (the
source sets it on the way to `updatePassword`), so the failure does not
write only `status` and `errorMessage`. -/
theorem c10_counterexample :
    stalePwState.passwordError ≠ "" ∧
    (validateAndSubmit (some "update failed") stalePwState).2 = true ∧
    (validateAndSubmit (some "update failed") stalePwState).1.status = Status.error ∧
    (validateAndSubmit (some "update failed") stalePwState).1.passwordError = "" := by
  refine ⟨by decide, by decide, by decide, by decide⟩

/-- C10 amended: entering `loading` clears `errorMessage` and `isExpired`
and never writes `canRetry`; `validateAndSubmit` never writes `canRetry`
or `isExpired` on any path (though a password-update failure also touches
the local validation messages and the submitting flag); consequently after
a retryable exchange failure followed by a successful retry, the `ready`
state still carries `canRetry = true`, and so does the `error` state of any
subsequent password-update failure. -/
theorem c10_amended (remote1 remote2 : RemoteOp → Option String) (s : ScreenState)
    (p : DeepLinkParams) (msg1 : String)
    (hcred : hasCredentials p = true)
    (hfail : exchangeResult remote1 p = some msg1)
    (hother : isExpiredOrUsedError msg1 = false)
    (hok : exchangeResult remote2 p = none) :
    (∀ t, (beginLoading t).errorMessage = "" ∧ (beginLoading t).isExpired = false ∧
      (beginLoading t).canRetry = t.canRetry) ∧
    (∀ r t, (validateAndSubmit r t).1.canRetry = t.canRetry ∧
      (validateAndSubmit r t).1.isExpired = t.isExpired) ∧
    (processParams remote1 s p).canRetry = true ∧
    (handleRetry remote2 (processParams remote1 s p)).status = Status.ready ∧
    (handleRetry remote2 (processParams remote1 s p)).canRetry = true ∧
    ∀ m, (validateAndSubmit (some m)
      (handleRetry remote2 (processParams remote1 s p))).1.canRetry = true := by
  have hlast : (processParams remote1 s p).lastParams = some p := by
    simp [processParams, hcred, hfail, settleExchange, beginLoading]
  have hcr : (processParams remote1 s p).canRetry = true := by
    simp [processParams, hcred, hfail, settleExchange, beginLoading, hother]
  have hretry : handleRetry remote2 (processParams remote1 s p) =
      processParams remote2 (processParams remote1 s p) p := by
    simp [handleRetry, hlast]
  have hready : (processParams remote2 (processParams remote1 s p) p).status = Status.ready := by
    simp [processParams, hcred, hok, settleExchange, beginLoading]
  have hcr2 : (processParams remote2 (processParams remote1 s p) p).canRetry =
      (processParams remote1 s p).canRetry := by
    simp [processParams, hcred, hok, settleExchange, beginLoading]
  refine ⟨fun t => ⟨rfl, rfl, rfl⟩,
    fun r t => ⟨(validateAndSubmit_frame r t).1, (validateAndSubmit_frame r t).2.1⟩,
    hcr, ?_, ?_, ?_⟩
  · rw [hretry]
    exact hready
  · rw [hretry, hcr2]
    exact hcr
  · intro m
    rw [hretry, (validateAndSubmit_frame (some m) _).1, hcr2]
    exact hcr

/-- C10 witness: the amended scenario at a concrete run — "boom" failure,
successful retry, then a failing password update. -/
theorem c10_witness :
    (processParams (fun _ => some "boom") initialState { code := some "abc" }).canRetry = true ∧
    (handleRetry (fun _ => none)
      (processParams (fun _ => some "boom") initialState { code := some "abc" })).status
        = Status.ready ∧
    (validateAndSubmit (some "update failed")
      (handleRetry (fun _ => none)
        (processParams (fun _ => some "boom") initialState { code := some "abc" }))).1.canRetry
          = true := by
  have h := c10_amended (fun _ => some "boom") (fun _ => none) initialState
    { code := some "abc" } "boom" (by decide) (by decide) (by decide) (by decide)
  exact ⟨h.2.2.1, h.2.2.2.1, h.2.2.2.2.2 "update failed"⟩

end ResetPassword
